import Mathlib

/-
Shallow embedding of the catalog / cart / order core of the turkey-items
application (Express + sqlite3).  Tables become lists of rows, the ad-hoc
route handlers become pure functions on an explicit database state, and
HTTP status codes become a typed error variant (400 / 404 / 409).
Prices are REAL columns and are modelled as Option Rat (NULL = none).
JavaScript truthiness checks of the handlers are modelled field by field.
-/

namespace TurkeyItems

/-- Error taxonomy of the HTTP handlers: 400 validation, 404 not found,
409 conflict (the 500 storage failures are outside the embedding). -/
inductive ApiError where
  | validation (msg : String)
  | notFound (msg : String)
  | conflict (msg : String)
deriving DecidableEq, Repr

/-- One row of the `classes` table (src/server/src/db.js, CREATE TABLE classes).
REAL columns are Option Rat, nullable TEXT columns Option String; the
timestamps are abstract Nat ticks. -/
structure ClassRow where
  id : Int
  special_id : Option String
  main_category : String
  quality : String
  class_name : String
  class_name_ar : Option String
  class_name_en : Option String
  class_features : Option String
  class_price : Option Rat
  class_weight : Option Rat
  class_video : Option String
  created_at : Nat
  updated_at : Nat
deriving DecidableEq, Repr

/-- One row of the `price_history` table (src/server/src/db.js): the
append-only ledger of price changes, FOREIGN KEY class_id with
ON DELETE CASCADE. -/
structure PriceHistoryRow where
  class_id : Int
  old_price : Option Rat
  new_price : Option Rat
  changed_at : Nat
deriving DecidableEq, Repr

/-- A frozen order line item as serialized into the `items` TEXT column
(shape from the client OrderItem type in src/unnamed/part_007). -/
structure OrderItem where
  classId : Int
  quantity : Int
  specialId : String
  quality : Option String
  className : String
  classNameArabic : Option String
  classNameEnglish : Option String
  classPrice : Option Rat
deriving DecidableEq, Repr

/-- Serialization of an optional string, used by the item snapshot
encoder below. -/
def encOptStr : Option String → String
  | none => "null"
  | some s => "s:" ++ s

/-- Serialization of an optional price. -/
def encOptRat : Option Rat → String
  | none => "null"
  | some q => toString q.num ++ "/" ++ toString q.den

/-- Serialization of one order line item. -/
def encodeItem (it : OrderItem) : String :=
  "(" ++ toString it.classId ++ "," ++ toString it.quantity ++ "," ++
    it.specialId ++ "," ++ encOptStr it.quality ++ "," ++ it.className ++ "," ++
    encOptStr it.classNameArabic ++ "," ++ encOptStr it.classNameEnglish ++ "," ++
    encOptRat it.classPrice ++ ")"

/-- The JSON.stringify of the items array in POST /api/orders is modelled
as a concrete serialization into the TEXT column; the claims only need
that the stored snapshot is an opaque string frozen at insert time. -/
def encodeItems (l : List OrderItem) : String :=
  "[" ++ String.intercalate "," (l.map encodeItem) ++ "]"

/-- One row of the `orders` table (src/server/src/db.js): the frozen item
snapshot lives in the TEXT column `items`. -/
structure OrderRow where
  id : Int
  order_id : Int
  customer_full_name : String
  customer_company : Option String
  customer_phone : Option String
  customer_sales_person : Option String
  customer_notes : Option String
  items : String
  known_total : Rat
  total_items : Int
  has_unknown_prices : Bool
  language : String
  created_at : Nat
deriving DecidableEq, Repr

/-- The customerInfo object of an order submission body; absent JS fields
are none. -/
structure CustomerInfo where
  fullName : Option String
  company : Option String
  phone : Option String
  salesPerson : Option String
  notes : Option String
deriving DecidableEq, Repr

/-- One session cart line: req.session.cart holds objects with classId and
quantity (src/unnamed/part_003). -/
structure CartItem where
  classId : Int
  quantity : Int
deriving DecidableEq, Repr

/-- Per-session cart state: the line list plus the cached cartTotal kept in
the session (an unset session cart is the empty list). -/
structure CartSession where
  cart : List CartItem
  cartTotal : Rat
deriving DecidableEq, Repr

/-- The response of GET /api/cart: joined lines plus the three derived
totals. -/
structure CartView where
  items : List (ClassRow × Int)
  totalItems : Int
  knownTotal : Rat
  hasUnknownPrices : Bool
deriving DecidableEq, Repr

/-- The whole persistent store: the three relational tables plus the
AUTOINCREMENT counters. -/
structure DB where
  classes : List ClassRow
  price_history : List PriceHistoryRow
  orders : List OrderRow
  nextClassId : Int
  nextOrderId : Int
deriving DecidableEq, Repr

/-- JavaScript `x || null` on an optional string: the empty string is falsy
and collapses to null. -/
def jsStrOrNull : Option String → Option String
  | none => none
  | some s => if s.isEmpty then none else some s

/-- JavaScript `x || d` on an optional string with a default. -/
def jsStrOr (d : String) : Option String → String
  | none => d
  | some s => if s.isEmpty then d else s

/-- Replace the first element satisfying the predicate (the JS pattern of
Array.prototype.find followed by in-place mutation of the found object). -/
def updateFirst (p : α → Bool) (f : α → α) : List α → List α
  | [] => []
  | x :: xs => if p x then f x :: xs else x :: updateFirst p f xs

/-- SELECT on classes by primary key: first row whose id matches (ids are
unique in any reachable store, so first = only). -/
def findClassById (classes : List ClassRow) (cid : Int) : Option ClassRow :=
  classes.find? (fun r => r.id == cid)

/-- The helper calculateCartTotal of src/unnamed/part_003 (lines 241-267):
sum of price times quantity over cart lines whose product row exists and
has a non-null price; an empty cart short-circuits to 0. -/
def calculateCartTotal (classes : List ClassRow) (cart : List CartItem) : Rat :=
  if cart.isEmpty then 0
  else
    cart.foldl (fun total ci =>
      match findClassById classes ci.classId with
      | some product =>
        match product.class_price with
        | some p => total + p * (ci.quantity : Rat)
        | none => total
      | none => total) 0

/-- The join of GET /api/cart: each line is paired with its current product
row, and lines whose product no longer exists are dropped (the
filter of the null entries in src/unnamed/part_003 lines 34-56). -/
def cartViewItems (classes : List ClassRow) (cart : List CartItem) :
    List (ClassRow × Int) :=
  cart.filterMap (fun ci =>
    (findClassById classes ci.classId).map (fun product => (product, ci.quantity)))

/-- GET /api/cart (src/unnamed/part_003 lines 6-83): empty carts return the
zero view; otherwise the joined lines are accumulated into totalItems,
knownTotal and hasUnknownPrices exactly as the forEach does. -/
def cartView (classes : List ClassRow) (cart : List CartItem) : CartView :=
  if cart.isEmpty then
    { items := [], totalItems := 0, knownTotal := 0, hasUnknownPrices := false }
  else
    let items := cartViewItems classes cart
    { items := items
      totalItems := items.foldl (fun acc it => acc + it.2) 0
      knownTotal := items.foldl (fun acc it =>
        match it.1.class_price with
        | some p => acc + p * (it.2 : Rat)
        | none => acc) 0
      hasUnknownPrices := items.any (fun it => it.1.class_price.isNone) }

/-- POST /api/cart/add (src/unnamed/part_003 lines 86-132): a falsy classId
is a 400; an existing line is incremented, otherwise a line with
quantity 1 is pushed; the recomputed total is stored in the session and
returned.  The catalog is never consulted for existence of classId. -/
def cartAdd (classes : List ClassRow) (s : CartSession) (classId : Int) :
    Except ApiError (CartSession × Rat) :=
  if classId == 0 then Except.error (ApiError.validation "Invalid classId")
  else
    let newCart :=
      if s.cart.any (fun it => it.classId == classId) then
        updateFirst (fun it => it.classId == classId)
          (fun it => { it with quantity := it.quantity + 1 }) s.cart
      else s.cart ++ [{ classId := classId, quantity := 1 }]
    let total := calculateCartTotal classes newCart
    Except.ok ({ cart := newCart, cartTotal := total }, total)

/-- PUT /api/cart/update (src/unnamed/part_003 lines 135-184): falsy classId
or negative quantity are 400s; a missing line is a 404 (checked before the
quantity-zero branch); quantity 0 filters the line out, a positive quantity
overwrites the found line. -/
def cartUpdate (classes : List ClassRow) (s : CartSession)
    (classId quantity : Int) : Except ApiError (CartSession × Rat) :=
  if classId == 0 then Except.error (ApiError.validation "Invalid classId")
  else if quantity < 0 then Except.error (ApiError.validation "Invalid quantity")
  else if (s.cart.find? (fun it => it.classId == classId)).isNone then
    Except.error (ApiError.notFound "Item not found in cart")
  else
    let newCart :=
      if quantity == 0 then s.cart.filter (fun it => !(it.classId == classId))
      else
        updateFirst (fun it => it.classId == classId)
          (fun it => { it with quantity := quantity }) s.cart
    let total := calculateCartTotal classes newCart
    Except.ok ({ cart := newCart, cartTotal := total }, total)

/-- DELETE /api/cart/remove/:classId (src/unnamed/part_003 lines 187-221):
filters the line out (no-op when absent) and recomputes the total; the
NaN guard only concerns unparsable path strings and is outside the
embedding, which receives the parsed integer. -/
def cartRemove (classes : List ClassRow) (s : CartSession) (classId : Int) :
    Except ApiError (CartSession × Rat) :=
  let newCart := s.cart.filter (fun it => !(it.classId == classId))
  let total := calculateCartTotal classes newCart
  Except.ok ({ cart := newCart, cartTotal := total }, total)

/-- Specification-side recomputation: the sum of quantity times price over
cart lines whose product currently exists with a non-null price. -/
def specKnownTotal (classes : List ClassRow) (cart : List CartItem) : Rat :=
  (cart.map (fun ci =>
    match findClassById classes ci.classId with
    | some product =>
      match product.class_price with
      | some p => p * (ci.quantity : Rat)
      | none => 0
    | none => 0)).sum

/-- Specification-side recomputation: the sum of quantities over cart lines
whose product currently exists. -/
def specTotalItems (classes : List ClassRow) (cart : List CartItem) : Int :=
  (cart.map (fun ci =>
    match findClassById classes ci.classId with
    | some _ => ci.quantity
    | none => 0)).sum

/-- The parsed body of PUT /api/classes/:id as the handler consumes it:
none is an absent (undefined) field; inner options model explicit JSON
nulls for the nullable columns.  The uploaded video file, when present, is
its final stored path. -/
structure UpdatePayload where
  specialId : Option String
  mainCategory : Option String
  quality : Option String
  className : Option String
  classNameArabic : Option (Option String)
  classNameEnglish : Option (Option String)
  classFeatures : Option (Option String)
  classPrice : Option (Option Rat)
  classWeight : Option (Option Rat)
  file : Option String
  classVideoUrl : Option String
deriving DecidableEq, Repr

/-- The column-by-column fallback of PUT /api/classes/:id
(src/server/src/routes/classes.js lines 242-281): absent fields keep the
current row value; specialId and className use JS truthiness (an empty
string also keeps the current value); the video path prefers an uploaded
file, then classVideoUrl (with the __DELETE__ sentinel clearing it), then
the current value; updated_at is refreshed. -/
def applyClassUpdate (cur : ClassRow) (p : UpdatePayload) (now : Nat) : ClassRow :=
  let videoPath :=
    match p.file with
    | some f => some f
    | none =>
      match p.classVideoUrl with
      | some u => if u == "__DELETE__" then none else some u
      | none => cur.class_video
  { id := cur.id
    special_id :=
      match p.specialId with
      | some s => if s.isEmpty then cur.special_id else some s
      | none => cur.special_id
    main_category := p.mainCategory.getD cur.main_category
    quality := p.quality.getD cur.quality
    class_name :=
      match p.className with
      | some s => if s.isEmpty then cur.class_name else s
      | none => cur.class_name
    class_name_ar := p.classNameArabic.getD cur.class_name_ar
    class_name_en := p.classNameEnglish.getD cur.class_name_en
    class_features := p.classFeatures.getD cur.class_features
    class_price := p.classPrice.getD cur.class_price
    class_weight := p.classWeight.getD cur.class_weight
    class_video := videoPath
    created_at := cur.created_at
    updated_at := now }

/-- PUT /api/classes/:id (src/server/src/routes/classes.js lines 216-332):
fetch the row by id (404 when absent), then run the UPDATE statement; the
handler writes only the classes table - it never inserts into
price_history. -/
def updateClass (db : DB) (id : Int) (p : UpdatePayload) (now : Nat) :
    Except ApiError DB :=
  match db.classes.find? (fun r => r.id == id) with
  | none => Except.error (ApiError.notFound "Class not found")
  | some cur =>
    Except.ok { db with
      classes := db.classes.map (fun r =>
        if r.id == id then applyClassUpdate cur p now else r) }

/-- DELETE /api/classes/:id (src/server/src/routes/classes.js lines 334-361)
together with the ON DELETE CASCADE referential action declared on
price_history.class_id (src/server/src/db.js lines 78-87): 404 when the row
is absent, otherwise the class row and its price-history rows are removed;
the orders table is untouched (the best-effort video unlink is outside the
embedding). -/
def deleteClass (db : DB) (id : Int) : Except ApiError DB :=
  match db.classes.find? (fun r => r.id == id) with
  | none => Except.error (ApiError.notFound "Class not found")
  | some _ =>
    Except.ok { db with
      classes := db.classes.filter (fun r => !(r.id == id))
      price_history := db.price_history.filter (fun e => !(e.class_id == id)) }

/-- The body of POST /api/orders as destructured by the handler; none is an
absent field.  orderId is a JS number, so the truthiness check also
rejects 0. -/
structure OrderPayload where
  orderId : Option Int
  customerInfo : Option CustomerInfo
  items : Option (List OrderItem)
  knownTotal : Option Rat
  totalItems : Option Int
  hasUnknownPrices : Bool
  language : Option String
deriving DecidableEq, Repr

/-- POST /api/orders (src/server/src/routes/orders.js lines 108-189): the
guard is the JS truthiness test on orderId, customerInfo, items and the
undefined test on knownTotal (an empty items array is truthy and passes);
the UNIQUE constraint on order_id surfaces as the 409 branch of the insert
callback; on success the serialized snapshot row is appended.  The state
is returned alongside the result so that rejected submissions visibly
leave the store unchanged. -/
def submitOrder (db : DB) (p : OrderPayload) (now : Nat) :
    DB × Except ApiError OrderRow :=
  match p.orderId, p.customerInfo, p.items, p.knownTotal with
  | some oid, some ci, some its, some kt =>
    if oid == 0 then (db, Except.error (ApiError.validation "Missing required fields"))
    else if db.orders.any (fun o => o.order_id == oid) then
      (db, Except.error (ApiError.conflict "Order with this ID already exists"))
    else
      let row : OrderRow :=
        { id := db.nextOrderId
          order_id := oid
          customer_full_name := jsStrOr "" ci.fullName
          customer_company := jsStrOrNull ci.company
          customer_phone := jsStrOrNull ci.phone
          customer_sales_person := jsStrOrNull ci.salesPerson
          customer_notes := jsStrOrNull ci.notes
          items := encodeItems its
          known_total := kt
          total_items := p.totalItems.getD 0
          has_unknown_prices := p.hasUnknownPrices
          language := jsStrOr "es" p.language
          created_at := now }
      ({ db with orders := db.orders ++ [row], nextOrderId := db.nextOrderId + 1 },
        Except.ok row)
  | _, _, _, _ => (db, Except.error (ApiError.validation "Missing required fields"))

/-- One spreadsheet row after the column-synonym resolution of the
bulk-upload handler (src/server/src/routes/classes.js lines 463-474): text
cells as strings (empty when blank), the numeric price and weight cells
already coerced by the loose-typing layer. -/
structure SheetRow where
  specialId : String
  mainCategory : String
  quality : String
  className : String
  classNameArabic : String
  classNameEnglish : String
  classFeatures : String
  classPrice : Option Rat
  classWeight : Option Rat
  classVideo : String
deriving DecidableEq, Repr

/-- The canonical record derived from one sheet row. -/
structure ParsedRow where
  specialId : Option String
  mainCategory : Option String
  quality : Option String
  className : String
  classNameArabic : Option String
  classNameEnglish : Option String
  classFeatures : Option String
  classPrice : Option Rat
  classWeight : Option Rat
  classVideo : Option String
deriving DecidableEq, Repr

/-- Whitespace trimming on the character list (the trim of the JS layer),
written over List Char so that concrete rows evaluate. -/
def trimChars (l : List Char) : List Char :=
  ((l.dropWhile Char.isWhitespace).reverse.dropWhile Char.isWhitespace).reverse

/-- String trimming via the character list. -/
def strTrim (s : String) : String :=
  String.mk (trimChars s.data)

/-- Modelled from the spec: parseClassPayload lives in
src/server/src/utils.js, which is not under src/; per spec section 4.5 it
trims and coerces each cell, with price and weight falling back to null on
empty or invalid input, and the specialId is underivable exactly when the
trimmed cell is empty. -/
def parseSheetRow (r : SheetRow) : ParsedRow :=
  let opt := fun (s : String) =>
    let t := trimChars s.data
    if t.isEmpty then none else some (String.mk t)
  { specialId := opt r.specialId
    mainCategory := opt r.mainCategory
    quality := opt r.quality
    className := strTrim r.className
    classNameArabic := opt r.classNameArabic
    classNameEnglish := opt r.classNameEnglish
    classFeatures := opt r.classFeatures
    classPrice := r.classPrice
    classWeight := r.classWeight
    classVideo := opt r.classVideo }

/-- One report entry of the skipped list, index included (1-based sheet
position plus the header row, i.e. 0-based loop index plus 2). -/
structure SkipEntry where
  index : Nat
  reason : String
deriving DecidableEq, Repr

/-- The bulk-upload UPDATE statement applied to a matching row
(src/server/src/routes/classes.js lines 429-442 and 532-546): every column
is overwritten from the parsed row; clsName is the precomputed fallback
value (parsed name when non-empty, else the existing name). -/
def applyBulkUpdate (c : ClassRow) (parsed : ParsedRow) (clsName : String)
    (now : Nat) : ClassRow :=
  { c with
    main_category := parsed.mainCategory.getD ""
    quality := parsed.quality.getD ""
    class_name := clsName
    class_name_ar := parsed.classNameArabic
    class_name_en := parsed.classNameEnglish
    class_features := parsed.classFeatures
    class_price := parsed.classPrice
    class_weight := parsed.classWeight
    class_video := parsed.classVideo
    updated_at := now }

/-- The bulk-upload INSERT statement for an unmatched specialId
(src/server/src/routes/classes.js lines 414-427 and 563-578). -/
def newClassFromParsed (id : Int) (sid : String) (parsed : ParsedRow)
    (now : Nat) : ClassRow :=
  { id := id
    special_id := some sid
    main_category := parsed.mainCategory.getD ""
    quality := parsed.quality.getD ""
    class_name := parsed.className
    class_name_ar := parsed.classNameArabic
    class_name_en := parsed.classNameEnglish
    class_features := parsed.classFeatures
    class_price := parsed.classPrice
    class_weight := parsed.classWeight
    class_video := parsed.classVideo
    created_at := now
    updated_at := now }

/-- One iteration of the bulk-upload row loop
(src/server/src/routes/classes.js lines 462-586) at 0-based index idx:
derive the record, skip when no specialId, look the catalog up by exact
special_id, update when found, skip when absent in update-only mode,
insert otherwise.  Returns the new store, the processed count (0 or 1) and
the skip entries (empty or a singleton with index idx + 2). -/
def bulkRow (updateOnly : Bool) (now : Nat) (db : DB) (idx : Nat)
    (r : SheetRow) : DB × Nat × List SkipEntry :=
  let parsed := parseSheetRow r
  match parsed.specialId with
  | none => (db, 0, [{ index := idx + 2, reason := "Special ID is required." }])
  | some sid =>
    match db.classes.find? (fun c => c.special_id == some sid) with
    | some existing =>
      let clsName := if parsed.className.isEmpty then existing.class_name
        else parsed.className
      ({ db with classes := db.classes.map (fun c =>
          if c.special_id == some sid then applyBulkUpdate c parsed clsName now
          else c) }, 1, [])
    | none =>
      if updateOnly then
        (db, 0, [{ index := idx + 2, reason := "Record not found (update only mode)." }])
      else
        ({ db with
            classes := db.classes ++ [newClassFromParsed db.nextClassId sid parsed now]
            nextClassId := db.nextClassId + 1 }, 1, [])

/-- The sequential row loop of the bulk upload starting at 0-based index
idx; accumulates the processed count and the skip report.  The handler
completes rows through serialized callbacks, in submitted order; the
report of the model lists skips in row order, which agrees on membership
and counts. -/
def bulkRows (updateOnly : Bool) (now : Nat) (db : DB) (idx : Nat) :
    List SheetRow → DB × Nat × List SkipEntry
  | [] => (db, 0, [])
  | r :: rs =>
    let step := bulkRow updateOnly now db idx r
    let rest := bulkRows updateOnly now step.1 (idx + 1) rs
    (rest.1, step.2.1 + rest.2.1, step.2.2 ++ rest.2.2)

/-- POST /api/classes/bulk-upload (src/server/src/routes/classes.js lines
390-593): an empty sheet is a 400, otherwise the row loop runs over the
whole batch and the report is returned. -/
def bulkUpload (updateOnly : Bool) (now : Nat) (db : DB)
    (rows : List SheetRow) : Except ApiError (DB × Nat × List SkipEntry) :=
  if rows.isEmpty then Except.error (ApiError.validation "Excel sheet is empty.")
  else Except.ok (bulkRows updateOnly now db 0 rows)

/-- An empty store, as produced by initializeDatabase on a fresh file. -/
def emptyDB : DB :=
  { classes := [], price_history := [], orders := [], nextClassId := 1,
    nextOrderId := 1 }

/-- Concrete fixture: a catalog row with id 1 and price 10. -/
def exClassBox : ClassRow :=
  { id := 1, special_id := some "CR01", main_category := "cat",
    quality := "A", class_name := "Box", class_name_ar := none,
    class_name_en := none, class_features := none, class_price := some 10,
    class_weight := none, class_video := none, created_at := 0,
    updated_at := 0 }

/-- Concrete fixture: a store holding just the Box row. -/
def exDb1 : DB :=
  { classes := [exClassBox], price_history := [], orders := [],
    nextClassId := 2, nextOrderId := 1 }

/-- Concrete fixture: an update body that only changes classPrice to 12. -/
def exPricePayload : UpdatePayload :=
  { specialId := none, mainCategory := none, quality := none,
    className := none, classNameArabic := none, classNameEnglish := none,
    classFeatures := none, classPrice := some (some 12), classWeight := none,
    file := none, classVideoUrl := none }

/-- Concrete fixture: an update body with every field absent. -/
def exEmptyPayload : UpdatePayload :=
  { specialId := none, mainCategory := none, quality := none,
    className := none, classNameArabic := none, classNameEnglish := none,
    classFeatures := none, classPrice := none, classWeight := none,
    file := none, classVideoUrl := none }

/-- Concrete fixture: a session whose cart holds one line for class 5. -/
def exSession5 : CartSession := { cart := [{ classId := 5, quantity := 2 }], cartTotal := 0 }

/-- Concrete fixture: customer info with just a name. -/
def exCustomer : CustomerInfo :=
  { fullName := some "Ada", company := none, phone := none,
    salesPerson := none, notes := none }

/-- Concrete fixture: one frozen order line. -/
def exOrderItem : OrderItem :=
  { classId := 1, quantity := 2, specialId := "CR01", quality := some "A",
    className := "Box", classNameArabic := none, classNameEnglish := none,
    classPrice := some 10 }

/-- Concrete fixture: a well-formed order submission with orderId 7. -/
def exOrderP1 : OrderPayload :=
  { orderId := some 7, customerInfo := some exCustomer,
    items := some [exOrderItem], knownTotal := some 20, totalItems := some 2,
    hasUnknownPrices := false, language := some "en" }

/-- Concrete fixture: a second submission reusing orderId 7. -/
def exOrderP2 : OrderPayload :=
  { orderId := some 7, customerInfo := some exCustomer,
    items := some [exOrderItem], knownTotal := some 20, totalItems := some 2,
    hasUnknownPrices := false, language := some "en" }

/-- Concrete fixture: a submission whose items field is the empty array. -/
def exOrderPEmptyItems : OrderPayload :=
  { orderId := some 9, customerInfo := some exCustomer,
    items := some [], knownTotal := some 0, totalItems := some 0,
    hasUnknownPrices := false, language := some "en" }

/-- Concrete fixture: the store after the first submission of exOrderP1. -/
def exDbAfterOrder1 : DB := (submitOrder emptyDB exOrderP1 3).1

/-- Concrete fixture: a sheet row with a fresh specialId CR10. -/
def exRowNew : SheetRow :=
  { specialId := "CR10", mainCategory := "cat", quality := "A",
    className := "Crate", classNameArabic := "", classNameEnglish := "",
    classFeatures := "", classPrice := some 5, classWeight := none,
    classVideo := "" }

/-- Concrete fixture: a sheet row whose specialId cell is blank. -/
def exRowBad : SheetRow :=
  { specialId := "   ", mainCategory := "cat", quality := "A",
    className := "Ghost", classNameArabic := "", classNameEnglish := "",
    classFeatures := "", classPrice := none, classWeight := none,
    classVideo := "" }

/-- Concrete fixture: a sheet row matching the existing CR01 record. -/
def exRowExisting : SheetRow :=
  { specialId := "CR01", mainCategory := "cat", quality := "A",
    className := "Box", classNameArabic := "", classNameEnglish := "",
    classFeatures := "", classPrice := some 11, classWeight := none,
    classVideo := "" }

/-- The expected stored row for the empty-items submission fixture. -/
def exEmptyOrderRow : OrderRow :=
  { id := 1, order_id := 9, customer_full_name := "Ada",
    customer_company := none, customer_phone := none,
    customer_sales_person := none, customer_notes := none,
    items := encodeItems [], known_total := 0, total_items := 0,
    has_unknown_prices := false, language := "en", created_at := 3 }

/-- The view fields recomputed from an already-joined item list; the
cart view equals this on the join for every cart, the empty-cart
short-circuit included. -/
def viewOfItems (items : List (ClassRow × Int)) : CartView :=
  { items := items
    totalItems := items.foldl (fun acc it => acc + it.2) 0
    knownTotal := items.foldl (fun acc it =>
      match it.1.class_price with
      | some p => acc + p * (it.2 : Rat)
      | none => acc) 0
    hasUnknownPrices := items.any (fun it => it.1.class_price.isNone) }

/-- The known-price contribution of one joined line. -/
def priceContribution (it : ClassRow × Int) : Rat :=
  match it.1.class_price with
  | some p => p * (it.2 : Rat)
  | none => 0

/-- Concrete fixture: the store after deleting class 1 from exDb1. -/
def exDbAfterDelete : DB :=
  { exDb1 with classes := [], price_history := [] }

/-- Concrete fixture: the row stored by the first submission of
exOrderP1 into the empty store. -/
def exOrderRow1 : OrderRow :=
  { id := 1, order_id := 7, customer_full_name := "Ada",
    customer_company := none, customer_phone := none,
    customer_sales_person := none, customer_notes := none,
    items := encodeItems [exOrderItem], known_total := 20, total_items := 2,
    has_unknown_prices := false, language := "en", created_at := 3 }

/-- Concrete fixture: a two-line cart over the exDb1 catalog, one line for
the existing class 1 and one for the vanished class 5. -/
def exCart2 : List CartItem :=
  [{ classId := 1, quantity := 2 }, { classId := 5, quantity := 1 }]

end TurkeyItems

namespace TurkeyItems

/-- The cart view is the view recomputed from the joined line list, for
every cart, the empty-cart short-circuit included. -/
theorem cartView_eq_viewOf (classes : List ClassRow) (cart : List CartItem) :
    cartView classes cart = viewOfItems (cartViewItems classes cart) := by
  cases cart with
  | nil => rfl
  | cons x xs => rfl

/-- Folding integer additions from an accumulator is the accumulator plus
the mapped sum. -/
theorem foldl_add_int (g : α → Int) (l : List α) (init : Int) :
    l.foldl (fun a x => a + g x) init = init + (l.map g).sum := by
  induction l generalizing init with
  | nil => simp
  | cons x xs ih => simp only [List.foldl_cons, List.map_cons, List.sum_cons, ih]; ring

/-- The known-total fold of the cart view is the accumulator plus the sum
of per-line price contributions. -/
theorem foldl_price (l : List (ClassRow × Int)) (init : Rat) :
    l.foldl (fun acc it =>
      match it.1.class_price with
      | some p => acc + p * (it.2 : Rat)
      | none => acc) init = init + (l.map priceContribution).sum := by
  induction l generalizing init with
  | nil => simp
  | cons x xs ih =>
    cases h : x.1.class_price with
    | none =>
      simp only [List.foldl_cons, List.map_cons, List.sum_cons, ih,
        priceContribution, h]
      ring
    | some p =>
      simp only [List.foldl_cons, List.map_cons, List.sum_cons, ih,
        priceContribution, h]
      ring

/-- The price contributions of the joined lines sum to the from-scratch
known total over the raw cart lines. -/
theorem viewItems_price_sum (classes : List ClassRow) (cart : List CartItem) :
    ((cartViewItems classes cart).map priceContribution).sum =
      specKnownTotal classes cart := by
  induction cart with
  | nil => rfl
  | cons ci rest ih =>
    simp only [cartViewItems, specKnownTotal, List.filterMap_cons,
      List.map_cons, List.sum_cons] at *
    cases h : findClassById classes ci.classId with
    | none => simpa [h, priceContribution] using ih
    | some product =>
      cases hp : product.class_price with
      | none => simpa [h, hp, priceContribution] using ih
      | some p => simpa [h, hp, priceContribution] using ih

/-- The quantities of the joined lines sum to the from-scratch item count
over the raw cart lines. -/
theorem viewItems_qty_sum (classes : List ClassRow) (cart : List CartItem) :
    ((cartViewItems classes cart).map (fun it => it.2)).sum =
      specTotalItems classes cart := by
  induction cart with
  | nil => rfl
  | cons ci rest ih =>
    simp only [cartViewItems, specTotalItems, List.filterMap_cons,
      List.map_cons, List.sum_cons] at *
    cases h : findClassById classes ci.classId with
    | none => simpa [h] using ih
    | some product => simpa [h] using ih

/-- The unknown-price flag of the joined lines is the existence of a cart
line whose product exists with a null price. -/
theorem viewItems_any_unknown (classes : List ClassRow) (cart : List CartItem) :
    ((cartViewItems classes cart).any (fun it => it.1.class_price.isNone) = true) ↔
      ∃ ci ∈ cart, ∃ product, findClassById classes ci.classId = some product ∧
        product.class_price = none := by
  constructor
  · intro h
    rcases List.any_eq_true.mp h with ⟨it, hmem, hnone⟩
    rcases List.mem_filterMap.mp hmem with ⟨ci, hci, hmap⟩
    rcases Option.map_eq_some'.mp hmap with ⟨product, hfind, heq⟩
    refine ⟨ci, hci, product, hfind, ?_⟩
    have : it.1 = product := by rw [← heq]
    rw [← Option.isNone_iff_eq_none, ← this]
    exact hnone
  · rintro ⟨ci, hci, product, hfind, hp⟩
    refine List.any_eq_true.mpr ⟨(product, ci.quantity), ?_, ?_⟩
    · exact List.mem_filterMap.mpr ⟨ci, hci, by rw [hfind]; rfl⟩
    · simp [hp]

/-- When no class row carries the looked-up id, no joined line shows a
record with that id. -/
theorem viewItems_id_ne (classes : List ClassRow) (cart : List CartItem)
    (cid : Int) (hmiss : findClassById classes cid = none) :
    ∀ it ∈ cartViewItems classes cart, it.1.id ≠ cid := by
  intro it hmem hid
  rcases List.mem_filterMap.mp hmem with ⟨ci, _, hmap⟩
  rcases Option.map_eq_some'.mp hmap with ⟨product, hfind, heq⟩
  have hfind2 : classes.find? (fun r => r.id == ci.classId) = some product := hfind
  have hpid2 : product.id = ci.classId := by simpa using List.find?_some hfind2
  have hit : it.1 = product := by rw [← heq]
  have hcc : ci.classId = cid := by rw [← hpid2, ← hit, hid]
  rw [hcc] at hfind
  rw [hmiss] at hfind
  exact Option.noConfusion hfind

/-- Replacing the first matching element keeps the first match at the found
position when the replacement still matches. -/
theorem find?_updateFirst (p : α → Bool) (f : α → α) (l : List α) (x : α)
    (h : l.find? p = some x) (hf : p (f x) = true) :
    (updateFirst p f l).find? p = some (f x) := by
  induction l with
  | nil => simp at h
  | cons a as ih =>
    by_cases hp : p a
    · rw [List.find?_cons_of_pos _ hp] at h
      injection h with h2
      subst h2
      simp [updateFirst, hp, List.find?_cons_of_pos _ hf]
    · rw [List.find?_cons_of_neg _ hp] at h
      simp only [updateFirst, hp, if_false, Bool.false_eq_true]
      rw [List.find?_cons_of_neg _ hp]
      exact ih h

/-- Every element of the first-match replacement is either an original
element or the image of a matching original element. -/
theorem mem_updateFirst (p : α → Bool) (f : α → α) (l : List α) (y : α)
    (h : y ∈ updateFirst p f l) :
    y ∈ l ∨ ∃ x, x ∈ l ∧ p x = true ∧ y = f x := by
  induction l with
  | nil => simp [updateFirst] at h
  | cons a as ih =>
    by_cases hp : p a
    · simp only [updateFirst, hp, if_true, List.mem_cons] at h
      rcases h with h | h
      · exact Or.inr ⟨a, List.mem_cons_self a as, hp, h⟩
      · exact Or.inl (List.mem_cons_of_mem _ h)
    · simp only [updateFirst, hp, if_false, Bool.false_eq_true, List.mem_cons] at h
      rcases h with h | h
      · exact Or.inl (by simp [h])
      · rcases ih h with h2 | ⟨x, hx, hpx, hyx⟩
        · exact Or.inl (List.mem_cons_of_mem _ h2)
        · exact Or.inr ⟨x, List.mem_cons_of_mem _ hx, hpx, hyx⟩

/-- First-match replacement by a match-preserving function leaves the
non-matching sublist unchanged, order and multiplicity included. -/
theorem filter_updateFirst (p : α → Bool) (f : α → α) (l : List α)
    (hf : ∀ x, p x = true → p (f x) = true) :
    (updateFirst p f l).filter (fun x => !(p x)) =
      l.filter (fun x => !(p x)) := by
  induction l with
  | nil => rfl
  | cons a as ih =>
    by_cases hp : p a = true
    · simp [updateFirst, hp, hf a hp]
    · simp [updateFirst, hp, ih]

/-- First-match replacement by a match-preserving function preserves the
existence test. -/
theorem any_updateFirst (p : α → Bool) (f : α → α) (l : List α)
    (hf : ∀ x, p x = true → p (f x) = true) :
    (updateFirst p f l).any p = l.any p := by
  induction l with
  | nil => rfl
  | cons a as ih =>
    by_cases hp : p a
    · simp [updateFirst, hp, hf a hp]
    · simp [updateFirst, hp, ih]

/-- Rewriting cart lines of a catalog-missing classId (without changing
their classId) does not change the joined view lines. -/
theorem viewItems_updateFirst_missing (classes : List ClassRow) (cid : Int)
    (hmiss : findClassById classes cid = none)
    (f : CartItem → CartItem) (hf : ∀ it, (f it).classId = it.classId)
    (cart : List CartItem) :
    cartViewItems classes (updateFirst (fun it => it.classId == cid) f cart) =
      cartViewItems classes cart := by
  induction cart with
  | nil => rfl
  | cons a as ih =>
    by_cases hp : (a.classId == cid) = true
    · have ha : a.classId = cid := by simpa using hp
      simp only [updateFirst, hp, if_true, cartViewItems, List.filterMap_cons]
      rw [hf a, ha, hmiss]
      rfl
    · simp only [updateFirst, hp, if_false, Bool.false_eq_true, cartViewItems,
        List.filterMap_cons]
      cases h : findClassById classes a.classId with
      | none => simpa [h] using ih
      | some product => simpa [h] using ih

/-- Mapping a row-replacement over a list keeps the first match at the
found position when the replacement still matches the predicate. -/
theorem find?_map_ite (l : List ClassRow) (id : Int) (v : ClassRow)
    (hv : (v.id == id) = true) (cur : ClassRow)
    (h : l.find? (fun r => r.id == id) = some cur) :
    (l.map (fun r => if (r.id == id) = true then v else r)).find?
      (fun r => r.id == id) = some v := by
  induction l with
  | nil => simp at h
  | cons a as ih =>
    by_cases hp : (a.id == id) = true
    · simp only [List.map_cons, hp, if_true]
      exact List.find?_cons_of_pos _ hv
    · rw [List.find?_cons_of_neg _ (by simpa using hp)] at h
      simp only [List.map_cons, hp, if_false, Bool.false_eq_true]
      rw [List.find?_cons_of_neg _ (by simpa using hp)]
      exact ih h

/-- C5: for every session cart state (hence after every sequence of cart
operations within one session) the view recomputes its totals live:
knownTotal is the sum of quantity times classPrice over lines whose
product currently exists with a non-null price, totalItems is the sum of
quantities over existing-product lines, hasUnknownPrices holds exactly
when some existing line has a null price, and a line whose product has
been deleted never appears in the view (the view is a total function, so
it never errors). -/
theorem cart_view_recomputes_live (classes : List ClassRow)
    (cart : List CartItem) :
    (cartView classes cart).knownTotal = specKnownTotal classes cart ∧
    (cartView classes cart).totalItems = specTotalItems classes cart ∧
    ((cartView classes cart).hasUnknownPrices = true ↔
      ∃ ci ∈ cart, ∃ product, findClassById classes ci.classId = some product ∧
        product.class_price = none) ∧
    (∀ ci ∈ cart, findClassById classes ci.classId = none →
      ∀ it ∈ (cartView classes cart).items, it.1.id ≠ ci.classId) := by
  rw [cartView_eq_viewOf]
  refine ⟨?_, ?_, ?_, ?_⟩
  · simp only [viewOfItems]
    rw [foldl_price, viewItems_price_sum, zero_add]
  · simp only [viewOfItems]
    rw [foldl_add_int (fun it : ClassRow × Int => it.2)
      (cartViewItems classes cart) 0, viewItems_qty_sum, zero_add]
  · simp only [viewOfItems]
    exact viewItems_any_unknown classes cart
  · simp only [viewOfItems]
    intro ci _ hmiss it hmem
    exact viewItems_id_ne classes cart ci.classId hmiss it hmem

/-- Witness for C5: the totals identities evaluated at the two-line
fixture cart over the exDb1 catalog. -/
theorem cart_view_recomputes_live_witness :
    (cartView exDb1.classes exCart2).knownTotal =
      specKnownTotal exDb1.classes exCart2 ∧
    (cartView exDb1.classes exCart2).totalItems =
      specTotalItems exDb1.classes exCart2 :=
  ⟨(cart_view_recomputes_live exDb1.classes exCart2).1,
   (cart_view_recomputes_live exDb1.classes exCart2).2.1⟩

/-- C6 (amended): the quantity update of PUT /api/cart/update, for a
non-falsy classId, rejects a negative quantity with the Invalid-quantity
ValidationError (it does not behave like remove there), fails with the
NotFoundError whenever the cart holds no line for classId (for every
non-negative quantity, 0 included), behaves exactly like the remove
operation at quantity 0 when the line exists, and at a positive quantity
overwrites the found line quantity while the sublist of all other lines
is left exactly unchanged (order and multiplicity included), and
recomputes the stored total. -/
theorem cart_setQuantity_semantics (classes : List ClassRow) (s : CartSession)
    (classId quantity : Int) (hc : classId ≠ 0) :
    (quantity < 0 →
      cartUpdate classes s classId quantity =
        Except.error (ApiError.validation "Invalid quantity")) ∧
    (0 ≤ quantity → s.cart.find? (fun it => it.classId == classId) = none →
      cartUpdate classes s classId quantity =
        Except.error (ApiError.notFound "Item not found in cart")) ∧
    ((s.cart.find? (fun it => it.classId == classId)).isSome →
      cartUpdate classes s classId 0 = cartRemove classes s classId) ∧
    (∀ line, s.cart.find? (fun it => it.classId == classId) = some line →
      0 < quantity →
      ∃ s2 t, cartUpdate classes s classId quantity = Except.ok (s2, t) ∧
        s2.cart.find? (fun it => it.classId == classId) =
          some { classId := classId, quantity := quantity } ∧
        s2.cart.filter (fun it => !(it.classId == classId)) =
          s.cart.filter (fun it => !(it.classId == classId)) ∧
        t = calculateCartTotal classes s2.cart) := by
  have hc2 : (classId == 0) = false := by simpa using hc
  refine ⟨?_, ?_, ?_, ?_⟩
  · intro hq
    simp [cartUpdate, hc2, hq]
  · intro hq hfind
    have hnn : ¬ quantity < 0 := not_lt.mpr hq
    simp [cartUpdate, hc2, hnn, hfind]
  · intro hsome
    rcases Option.isSome_iff_exists.mp hsome with ⟨line, hline⟩
    simp [cartUpdate, cartRemove, hc2, hline]
  · intro line hline hq
    have hnn : ¬ quantity < 0 := not_lt.mpr (le_of_lt hq)
    have hqz : (quantity == 0) = false := by simpa using (ne_of_gt hq)
    have hlc : line.classId = classId := by simpa using List.find?_some hline
    set nc := updateFirst (fun it => it.classId == classId)
      (fun it => { it with quantity := quantity }) s.cart with hnc
    refine ⟨⟨nc, calculateCartTotal classes nc⟩,
      calculateCartTotal classes nc, ?_, ?_, ?_, rfl⟩
    · simp [cartUpdate, hc2, hnn, hline, hqz]
    · have hpf : (fun it : CartItem => it.classId == classId)
          { line with quantity := quantity } = true := by simpa using hlc
      rw [find?_updateFirst (fun it => it.classId == classId)
        (fun it => { it with quantity := quantity }) s.cart line hline hpf]
      simp [hlc]
    · exact filter_updateFirst (fun it => it.classId == classId)
        (fun it => { it with quantity := quantity }) s.cart
        (fun x hx => by simpa using hx)

/-- Witness for C6: at the one-line fixture cart, the quantity-0 update on
the existing line 5 coincides with the remove operation. -/
theorem cart_setQuantity_semantics_witness :
    cartUpdate [] exSession5 5 0 = cartRemove [] exSession5 5 :=
  (cart_setQuantity_semantics [] exSession5 5 0 (by decide)).2.2.1 (by rfl)

/-- C10: POST /api/cart/add never checks classId against the catalog:
adding an id with no catalog record succeeds (no error) and stores a cart
line for it, yet the stored line is invisible in the view - the view
equals the view of the previous cart, and no view item carries that id,
so the line contributes nothing to knownTotal, totalItems or
hasUnknownPrices. -/
theorem cart_add_skips_catalog_check (classes : List ClassRow)
    (s : CartSession) (classId : Int) (hc : classId ≠ 0)
    (hmiss : findClassById classes classId = none) :
    ∃ s2 t, cartAdd classes s classId = Except.ok (s2, t) ∧
      (s2.cart.any fun it => it.classId == classId) = true ∧
      cartView classes s2.cart = cartView classes s.cart ∧
      ∀ it ∈ (cartView classes s2.cart).items, it.1.id ≠ classId := by
  have hc2 : (classId == 0) = false := by simpa using hc
  by_cases hin : (s.cart.any fun it => it.classId == classId) = true
  · set nc := updateFirst (fun it => it.classId == classId)
      (fun it => { it with quantity := it.quantity + 1 }) s.cart with hnc
    have hview : cartViewItems classes nc = cartViewItems classes s.cart :=
      viewItems_updateFirst_missing classes classId hmiss
        (fun it => { it with quantity := it.quantity + 1 }) (fun it => rfl) s.cart
    refine ⟨⟨nc, calculateCartTotal classes nc⟩,
      calculateCartTotal classes nc, ?_, ?_, ?_, ?_⟩
    · simp [cartAdd, hc2, hin]
    · rw [any_updateFirst _ _ _ (fun x hx => by simpa using hx)]
      exact hin
    · rw [cartView_eq_viewOf, cartView_eq_viewOf, hview]
    · rw [cartView_eq_viewOf]
      simp only [viewOfItems]
      intro it hmem
      exact viewItems_id_ne classes _ classId hmiss it hmem
  · set nc := s.cart ++ [{ classId := classId, quantity := 1 : CartItem }] with hnc
    have happ : cartViewItems classes nc = cartViewItems classes s.cart := by
      rw [hnc]
      simp [cartViewItems, List.filterMap_append, hmiss]
    refine ⟨⟨nc, calculateCartTotal classes nc⟩,
      calculateCartTotal classes nc, ?_, ?_, ?_, ?_⟩
    · simp [cartAdd, hc2, hin]
    · refine List.any_eq_true.mpr ⟨⟨classId, 1⟩, ?_, by simp⟩
      rw [hnc]
      exact List.mem_append_right _ (List.mem_singleton.mpr rfl)
    · rw [cartView_eq_viewOf, cartView_eq_viewOf, happ]
    · rw [cartView_eq_viewOf]
      simp only [viewOfItems]
      intro it hmem
      exact viewItems_id_ne classes _ classId hmiss it hmem

/-- Witness for C10: adding the catalog-missing id 99 to the fixture cart
succeeds and leaves the view unchanged. -/
theorem cart_add_skips_catalog_check_witness :
    ∃ s2 t, cartAdd exDb1.classes exSession5 99 = Except.ok (s2, t) ∧
      (s2.cart.any fun it => it.classId == 99) = true ∧
      cartView exDb1.classes s2.cart = cartView exDb1.classes exSession5.cart ∧
      ∀ it ∈ (cartView exDb1.classes s2.cart).items, it.1.id ≠ 99 :=
  cart_add_skips_catalog_check exDb1.classes exSession5 99 (by decide) (by rfl)

/-- C2: a successful class deletion leaves no price-history row for the
deleted id (the declared ON DELETE CASCADE), no session cart view shows a
line for the deleted id afterwards (the join silently drops it), and the
orders table - every frozen item snapshot string included - is exactly
the one from before the deletion. -/
theorem delete_cascades_and_freezes_orders (db : DB) (id : Int) (db2 : DB)
    (h : deleteClass db id = Except.ok db2) :
    (∀ e ∈ db2.price_history, e.class_id ≠ id) ∧
    (∀ cart : List CartItem, ∀ it ∈ (cartView db2.classes cart).items,
      it.1.id ≠ id) ∧
    db2.orders = db.orders := by
  unfold deleteClass at h
  cases hf : db.classes.find? (fun r => r.id == id) with
  | none => rw [hf] at h; exact Except.noConfusion h
  | some cur =>
    rw [hf] at h
    injection h with h2
    subst h2
    refine ⟨?_, ?_, rfl⟩
    · intro e he
      have := (List.mem_filter.mp he).2
      simpa using this
    · have hmiss : findClassById
          (db.classes.filter (fun r => !(r.id == id))) id = none := by
        apply List.find?_eq_none.mpr
        intro r hr
        have := (List.mem_filter.mp hr).2
        simpa using this
      intro cart
      rw [cartView_eq_viewOf]
      simp only [viewOfItems]
      intro it hmem
      exact viewItems_id_ne _ cart id hmiss it hmem

/-- Witness for C2: deleting class 1 from the one-class fixture store
empties its ledger slice, hides it from every cart view, and keeps the
orders list. -/
theorem delete_cascades_witness :
    (∀ e ∈ exDbAfterDelete.price_history, e.class_id ≠ 1) ∧
    (∀ cart : List CartItem,
      ∀ it ∈ (cartView exDbAfterDelete.classes cart).items, it.1.id ≠ 1) ∧
    exDbAfterDelete.orders = exDb1.orders :=
  delete_cascades_and_freezes_orders exDb1 1 exDbAfterDelete (by rfl)

/-- C1: the spec demands that a catalog update changing classPrice from a
to b appends exactly one PriceHistoryEntry (oldPrice a, newPrice b).  The
code violates this: PUT /api/classes/:id runs only the classes UPDATE and
never inserts into price_history, so at the failing input (class 1,
price 10 updated to 12) the update succeeds, the stored price becomes 12,
and the ledger stays empty. -/
theorem update_price_change_writes_no_history :
    (updateClass exDb1 1 exPricePayload 5).toOption.map DB.price_history =
      some [] ∧
    (updateClass exDb1 1 exPricePayload 5).toOption.map
        (fun db => (findClassById db.classes 1).map ClassRow.class_price) =
      some (some (some 12)) := by
  exact ⟨rfl, rfl⟩

/-- C6 counterexample: the claim says a quantity-update with quantity at
most 0 behaves exactly like removing the line; but at quantity -1 on a
cart holding class 5 the code rejects with the Invalid-quantity 400 while
the remove operation succeeds. -/
theorem setQuantity_negative_is_rejected_not_remove :
    cartUpdate [] exSession5 5 (-1) =
      Except.error (ApiError.validation "Invalid quantity") ∧
    cartRemove [] exSession5 5 =
      Except.ok ({ cart := [], cartTotal := 0 }, 0) := by
  exact ⟨rfl, rfl⟩

/-- C3 counterexample: the claim says a submission whose items field is the
empty array is rejected with a ValidationError and no order is stored; but
the truthiness guard of POST /api/orders lets the empty (truthy) array
through, and at the concrete payload with orderId 9 the order is created
and stored with an empty frozen snapshot. -/
theorem empty_items_order_is_stored :
    submitOrder emptyDB exOrderPEmptyItems 3 =
      ({ emptyDB with orders := [exEmptyOrderRow], nextOrderId := 2 },
        Except.ok exEmptyOrderRow) := by
  rfl

/-- C9: PUT /api/classes/:id applies field-wise merge semantics: an
unknown id fails with the NotFoundError; an existing row is replaced by
the merged row, where every field absent from the payload keeps its prior
stored value, id and created_at are always preserved, updated_at is
refreshed, and the other tables are untouched. -/
theorem update_partial_semantics (db : DB) (id : Int) (p : UpdatePayload)
    (now : Nat) :
    (db.classes.find? (fun r => r.id == id) = none →
      updateClass db id p now =
        Except.error (ApiError.notFound "Class not found")) ∧
    (∀ cur, db.classes.find? (fun r => r.id == id) = some cur →
      ∃ db2, updateClass db id p now = Except.ok db2 ∧
        db2.classes.find? (fun r => r.id == id) =
          some (applyClassUpdate cur p now) ∧
        db2.price_history = db.price_history ∧
        db2.orders = db.orders ∧
        (applyClassUpdate cur p now).id = cur.id ∧
        (applyClassUpdate cur p now).created_at = cur.created_at ∧
        (applyClassUpdate cur p now).updated_at = now ∧
        (p.specialId = none →
          (applyClassUpdate cur p now).special_id = cur.special_id) ∧
        (p.mainCategory = none →
          (applyClassUpdate cur p now).main_category = cur.main_category) ∧
        (p.quality = none →
          (applyClassUpdate cur p now).quality = cur.quality) ∧
        (p.className = none →
          (applyClassUpdate cur p now).class_name = cur.class_name) ∧
        (p.classNameArabic = none →
          (applyClassUpdate cur p now).class_name_ar = cur.class_name_ar) ∧
        (p.classNameEnglish = none →
          (applyClassUpdate cur p now).class_name_en = cur.class_name_en) ∧
        (p.classFeatures = none →
          (applyClassUpdate cur p now).class_features = cur.class_features) ∧
        (p.classPrice = none →
          (applyClassUpdate cur p now).class_price = cur.class_price) ∧
        (p.classWeight = none →
          (applyClassUpdate cur p now).class_weight = cur.class_weight) ∧
        (p.file = none → p.classVideoUrl = none →
          (applyClassUpdate cur p now).class_video = cur.class_video)) := by
  constructor
  · intro h
    unfold updateClass
    rw [h]
  · intro cur hcur
    refine ⟨{ db with classes := db.classes.map (fun r =>
        if (r.id == id) = true then applyClassUpdate cur p now else r) },
      ?_, ?_, rfl, rfl, rfl, rfl, rfl, ?_, ?_, ?_, ?_, ?_, ?_, ?_, ?_, ?_, ?_⟩
    · unfold updateClass
      rw [hcur]
    · have hcv : ((applyClassUpdate cur p now).id == id) = true := by
        have h2 : db.classes.find? (fun r => r.id == id) = some cur := hcur
        have h3 := List.find?_some h2
        simpa [applyClassUpdate] using h3
      exact find?_map_ite db.classes id _ hcv cur hcur
    · intro h; simp [applyClassUpdate, h]
    · intro h; simp [applyClassUpdate, h]
    · intro h; simp [applyClassUpdate, h]
    · intro h; simp [applyClassUpdate, h]
    · intro h; simp [applyClassUpdate, h]
    · intro h; simp [applyClassUpdate, h]
    · intro h; simp [applyClassUpdate, h]
    · intro h; simp [applyClassUpdate, h]
    · intro h; simp [applyClassUpdate, h]
    · intro h1 h2; simp [applyClassUpdate, h1, h2]

/-- Witness for C9: updating the unknown id 2 of the one-class fixture
store fails with the NotFoundError. -/
theorem update_partial_semantics_witness :
    updateClass exDb1 2 exEmptyPayload 9 =
      Except.error (ApiError.notFound "Class not found") :=
  (update_partial_semantics exDb1 2 exEmptyPayload 9).1 (by rfl)

/-- C3 (amended): the guard of POST /api/orders does not reject an empty
items array (an empty JS array is truthy): a submission with items = []
whose orderId is present and non-zero and not yet taken, whose
customerInfo is present and whose knownTotal is defined, is accepted and
stored, with the empty frozen snapshot in the appended row. -/
theorem empty_items_submission_accepted (db : DB) (p : OrderPayload)
    (now : Nat) (oid : Int) (ci : CustomerInfo) (kt : Rat)
    (h1 : p.orderId = some oid) (h0 : oid ≠ 0)
    (h2 : p.customerInfo = some ci) (h3 : p.items = some [])
    (h4 : p.knownTotal = some kt)
    (h5 : (db.orders.any fun o => o.order_id == oid) = false) :
    ∃ row, submitOrder db p now =
      ({ db with
          orders := db.orders ++ [row]
          nextOrderId := db.nextOrderId + 1 }, Except.ok row) ∧
      row.items = encodeItems [] ∧ row.order_id = oid := by
  have h0b : (oid == 0) = false := by simpa using h0
  obtain ⟨po, pc, pi, pk, pt, ph, pl⟩ := p
  simp only at h1 h2 h3 h4
  subst h1; subst h2; subst h3; subst h4
  refine ⟨{
      id := db.nextOrderId
      order_id := oid
      customer_full_name := jsStrOr "" ci.fullName
      customer_company := jsStrOrNull ci.company
      customer_phone := jsStrOrNull ci.phone
      customer_sales_person := jsStrOrNull ci.salesPerson
      customer_notes := jsStrOrNull ci.notes
      items := encodeItems []
      known_total := kt
      total_items := pt.getD 0
      has_unknown_prices := ph
      language := jsStrOr "es" pl
      created_at := now }, ?_, rfl, rfl⟩
  simp [submitOrder, h0b, h5]

/-- Witness for C3: the fixture empty-items payload with orderId 9 is
stored into the empty store. -/
theorem empty_items_submission_accepted_witness :
    ∃ row, submitOrder emptyDB exOrderPEmptyItems 3 =
      ({ emptyDB with
          orders := emptyDB.orders ++ [row]
          nextOrderId := emptyDB.nextOrderId + 1 }, Except.ok row) ∧
      row.items = encodeItems [] ∧ row.order_id = 9 :=
  empty_items_submission_accepted emptyDB exOrderPEmptyItems 3 9 exCustomer 0
    rfl (by decide) rfl rfl rfl rfl

/-- C4: submitting a second order carrying the orderId of an already
stored order is rejected with the 409 ConflictError raised from the
UNIQUE constraint, the store is returned unchanged (no upsert, no merge),
and the first stored row is still in the ledger. -/
theorem duplicate_orderId_conflict (db db1 : DB) (p1 p2 : OrderPayload)
    (r1 : OrderRow) (n1 n2 : Nat)
    (h1 : submitOrder db p1 n1 = (db1, Except.ok r1))
    (hid : p2.orderId = p1.orderId)
    (hci : p2.customerInfo.isSome) (hit : p2.items.isSome)
    (hkt : p2.knownTotal.isSome) :
    submitOrder db1 p2 n2 =
      (db1, Except.error (ApiError.conflict "Order with this ID already exists")) ∧
    r1 ∈ db1.orders := by
  obtain ⟨po1, pc1, pi1, pk1, pt1, ph1, pl1⟩ := p1
  simp only at h1 hid
  cases po1 with
  | none => simp [submitOrder] at h1
  | some oid =>
    cases pc1 with
    | none => simp [submitOrder] at h1
    | some ci1 =>
      cases pi1 with
      | none => simp [submitOrder] at h1
      | some its1 =>
        cases pk1 with
        | none => simp [submitOrder] at h1
        | some kt1 =>
          by_cases hz : (oid == 0) = true
          · simp [submitOrder, hz] at h1
          · by_cases hdup : (db.orders.any fun o => o.order_id == oid) = true
            · simp [submitOrder, hz, hdup] at h1
            · simp only [submitOrder, hz, if_false, Bool.false_eq_true,
                hdup, Prod.mk.injEq, Except.ok.injEq] at h1
              obtain ⟨hdb, hrow⟩ := h1
              obtain ⟨po2, pc2, pi2, pk2, pt2, ph2, pl2⟩ := p2
              simp only at hid hci hit hkt
              subst hid
              obtain ⟨ci2, hci2⟩ := Option.isSome_iff_exists.mp hci
              obtain ⟨its2, hit2⟩ := Option.isSome_iff_exists.mp hit
              obtain ⟨kt2, hkt2⟩ := Option.isSome_iff_exists.mp hkt
              subst hci2; subst hit2; subst hkt2
              have hmem : r1 ∈ db1.orders := by
                rw [← hdb]
                exact List.mem_append_right _ (by simp [hrow])
              have hdup2 : (db1.orders.any fun o => o.order_id == oid) = true := by
                rw [← hdb]
                simp [List.any_append, ← hrow]
              refine ⟨?_, hmem⟩
              simp [submitOrder, hz, hdup2]

/-- The store and the processed count of one bulk row do not depend on the
row index (only the reported skip indices do). -/
theorem bulkRow_idx_db_count (uo : Bool) (now : Nat) (db : DB) (i j : Nat)
    (r : SheetRow) :
    (bulkRow uo now db i r).1 = (bulkRow uo now db j r).1 ∧
    (bulkRow uo now db i r).2.1 = (bulkRow uo now db j r).2.1 := by
  unfold bulkRow
  cases h : (parseSheetRow r).specialId with
  | none => simp [h]
  | some sid =>
    cases hf : db.classes.find? (fun c => c.special_id == some sid) with
    | some existing => simp [h, hf]
    | none => cases uo <;> simp [h, hf]

/-- One skipped malformed row leaves the store unchanged, counts zero
processed rows and reports exactly the missing-specialId skip at its
sheet index. -/
theorem bulkRow_malformed (uo : Bool) (now : Nat) (db : DB) (i : Nat)
    (r : SheetRow) (hbad : (parseSheetRow r).specialId = none) :
    bulkRow uo now db i r =
      (db, 0, [{ index := i + 2, reason := "Special ID is required." }]) := by
  simp [bulkRow, hbad]

/-- Splitting a batch splits the bulk loop: the second half runs on the
store left by the first half, and counts and skip reports concatenate. -/
theorem bulkRows_append (uo : Bool) (now : Nat) (db : DB) (i : Nat)
    (xs ys : List SheetRow) :
    bulkRows uo now db i (xs ++ ys) =
      ((bulkRows uo now (bulkRows uo now db i xs).1 (i + xs.length) ys).1,
        (bulkRows uo now db i xs).2.1 +
          (bulkRows uo now (bulkRows uo now db i xs).1 (i + xs.length) ys).2.1,
        (bulkRows uo now db i xs).2.2 ++
          (bulkRows uo now (bulkRows uo now db i xs).1 (i + xs.length) ys).2.2) := by
  induction xs generalizing db i with
  | nil => simp [bulkRows]
  | cons x xs ih =>
    have hidx : i + 1 + xs.length = i + (xs.length + 1) := by omega
    simp only [List.cons_append, bulkRows, List.length_cons, List.append_eq]
    rw [ih (bulkRow uo now db i x).1 (i + 1), hidx]
    simp [Nat.add_assoc, List.append_assoc]

/-- The final store and the processed count of a bulk batch do not depend
on the starting index. -/
theorem bulkRows_idx_db_count (uo : Bool) (now : Nat) (db : DB) (i j : Nat)
    (rs : List SheetRow) :
    (bulkRows uo now db i rs).1 = (bulkRows uo now db j rs).1 ∧
    (bulkRows uo now db i rs).2.1 = (bulkRows uo now db j rs).2.1 := by
  induction rs generalizing db i j with
  | nil => exact ⟨rfl, rfl⟩
  | cons r rs ih =>
    have hstep := bulkRow_idx_db_count uo now db i j r
    simp only [bulkRows]
    rw [hstep.1, hstep.2]
    have hrest := ih (bulkRow uo now db j r).1 (i + 1) (j + 1)
    rw [hrest.1, hrest.2]
    exact ⟨rfl, rfl⟩

/-- C7: a bulk-sync row whose derived specialId matches no catalog record:
with updateOnly on, the row yields the record-not-found skip entry at its
sheet index and the store is unchanged (no record created); with
updateOnly off, a new record carrying exactly that specialId is appended
and the row counts as one processed. -/
theorem bulk_row_unmatched_specialId (db : DB) (now idx : Nat) (r : SheetRow)
    (sid : String) (hsid : (parseSheetRow r).specialId = some sid)
    (hmiss : db.classes.find? (fun c => c.special_id == some sid) = none) :
    bulkRow true now db idx r =
      (db, 0, [{ index := idx + 2, reason := "Record not found (update only mode)." }]) ∧
    bulkRow false now db idx r =
      ({ db with classes := db.classes ++ [newClassFromParsed db.nextClassId sid (parseSheetRow r) now], nextClassId := db.nextClassId + 1 }, 1, []) ∧
    (newClassFromParsed db.nextClassId sid (parseSheetRow r) now).special_id =
      some sid := by
  refine ⟨?_, ?_, rfl⟩
  · simp [bulkRow, hsid, hmiss]
  · simp [bulkRow, hsid, hmiss]

/-- Witness for C7: the fixture row CR10 is absent from the one-class
store; in update-only mode it is skipped with the record-not-found
reason. -/
theorem bulk_row_unmatched_specialId_witness :
    bulkRow true 4 exDb1 0 exRowNew =
      (exDb1, 0, [{ index := 2, reason := "Record not found (update only mode)." }]) :=
  (bulk_row_unmatched_specialId exDb1 4 0 exRowNew "CR10" (by decide) (by decide)).1

/-- C8: a bulk batch containing a malformed row (underivable specialId)
still processes every other row - the final store and the processed count
equal those of the batch without the malformed row - and the report lists
the malformed row as skipped with a readable reason at the 1-based sheet
index including the header offset (0-based position pre.length, reported
index pre.length + 2). -/
theorem bulk_batch_isolates_malformed_row (db : DB) (now : Nat) (uo : Bool)
    (pre post : List SheetRow) (r : SheetRow)
    (hbad : (parseSheetRow r).specialId = none) :
    (bulkRows uo now db 0 (pre ++ r :: post)).1 =
      (bulkRows uo now db 0 (pre ++ post)).1 ∧
    (bulkRows uo now db 0 (pre ++ r :: post)).2.1 =
      (bulkRows uo now db 0 (pre ++ post)).2.1 ∧
    ({ index := pre.length + 2, reason := "Special ID is required." } :
      SkipEntry) ∈ (bulkRows uo now db 0 (pre ++ r :: post)).2.2 := by
  rw [bulkRows_append uo now db 0 pre (r :: post),
    bulkRows_append uo now db 0 pre post]
  simp only [bulkRows, Nat.zero_add]
  rw [bulkRow_malformed uo now (bulkRows uo now db 0 pre).1 pre.length r hbad]
  have hrest := bulkRows_idx_db_count uo now (bulkRows uo now db 0 pre).1
    (pre.length + 1) pre.length post
  refine ⟨?_, ?_, ?_⟩
  · exact hrest.1
  · simp [hrest.2]
  · apply List.mem_append_right
    exact List.mem_append_left _ (List.mem_singleton.mpr rfl)

/-- Witness for C8: in the fixture batch new-row, malformed-row,
existing-row over the one-class store, the malformed middle row is
reported at sheet index 3 while the store and the processed count match
the two-row batch without it. -/
theorem bulk_batch_isolates_malformed_row_witness :
    (bulkRows false 9 exDb1 0 [exRowNew, exRowBad, exRowExisting]).1 =
      (bulkRows false 9 exDb1 0 [exRowNew, exRowExisting]).1 ∧
    (bulkRows false 9 exDb1 0 [exRowNew, exRowBad, exRowExisting]).2.1 =
      (bulkRows false 9 exDb1 0 [exRowNew, exRowExisting]).2.1 ∧
    ({ index := 3, reason := "Special ID is required." } : SkipEntry) ∈
      (bulkRows false 9 exDb1 0 [exRowNew, exRowBad, exRowExisting]).2.2 :=
  bulk_batch_isolates_malformed_row exDb1 9 false [exRowNew] [exRowExisting]
    exRowBad (by decide)

/-- Witness for C4: resubmitting the fixture payload with orderId 7 after
its first submission is rejected with the conflict error and the stored
row survives. -/
theorem duplicate_orderId_conflict_witness :
    submitOrder exDbAfterOrder1 exOrderP2 4 =
      (exDbAfterOrder1,
        Except.error (ApiError.conflict "Order with this ID already exists")) ∧
    exOrderRow1 ∈ exDbAfterOrder1.orders :=
  duplicate_orderId_conflict emptyDB exDbAfterOrder1 exOrderP1 exOrderP2
    exOrderRow1 3 4 rfl rfl rfl rfl rfl

end TurkeyItems
